import Mathlib

/-!
Shallow embedding of the b-em floppy storage subsystem: the SDF disk-image
backend (sdf.c), the drive-dispatch layer (disc.c) and the WD1770 floppy
controller chip emulation (wd1770.c).  C global variables become fields of an
explicit state record `EmuState`; machine integers are `Nat`/`Int` with
explicit truncation where the C types truncate (uint8_t stores take `% 256`,
the uint16_t counter decrements/increments with wraparound); the per-drive
image files become a per-drive byte-content function plus a file position,
mirroring `fseek`/`getc`/`putc` on a `FILE`.
-/

/-- C enum sides_t from sdf.c. -/
inductive sides_t
  | SIDES_NA
  | SIDES_SINGLE
  | SIDES_SEQUENTIAL
  | SIDES_INTERLEAVED
deriving DecidableEq, Repr

/-- C enum density_t from sdf.c. -/
inductive density_t
  | DENS_NA
  | DENS_SINGLE
  | DENS_DOUBLE
  | DENS_QUAD
deriving DecidableEq, Repr

/-- C struct geometry_t from sdf.c (the name string is dropped; in the source
it only serves as the table terminator). -/
structure geometry_t where
  sides : sides_t
  density : density_t
  size_in_sectors : Nat
  tracks : Nat
  sectors_per_track : Nat
  sector_size : Nat
deriving DecidableEq, Repr

/-- Table adfs_new_formats from sdf.c. -/
def adfs_new_formats : List geometry_t :=
  [ ⟨.SIDES_INTERLEAVED, .DENS_QUAD,   1600, 80, 10, 1024⟩,
    ⟨.SIDES_INTERLEAVED, .DENS_DOUBLE,  800, 80,  5, 1024⟩ ]

/-- Table adfs_old_formats from sdf.c. -/
def adfs_old_formats : List geometry_t :=
  [ ⟨.SIDES_INTERLEAVED, .DENS_DOUBLE, 2560, 80, 16, 256⟩,
    ⟨.SIDES_SINGLE,      .DENS_DOUBLE, 1280, 80, 16, 256⟩,
    ⟨.SIDES_SINGLE,      .DENS_DOUBLE,  640, 40, 16, 256⟩ ]

/-- Table dfs_formats from sdf.c. -/
def dfs_formats : List geometry_t :=
  [ ⟨.SIDES_INTERLEAVED, .DENS_DOUBLE, 1440, 80, 18, 256⟩,
    ⟨.SIDES_SEQUENTIAL,  .DENS_DOUBLE, 1440, 80, 18, 256⟩,
    ⟨.SIDES_SINGLE,      .DENS_DOUBLE, 1440, 80, 18, 256⟩,
    ⟨.SIDES_INTERLEAVED, .DENS_DOUBLE,  720, 40, 18, 256⟩,
    ⟨.SIDES_SEQUENTIAL,  .DENS_DOUBLE,  720, 40, 18, 256⟩,
    ⟨.SIDES_SINGLE,      .DENS_DOUBLE,  720, 40, 18, 256⟩,
    ⟨.SIDES_INTERLEAVED, .DENS_DOUBLE, 1280, 80, 16, 256⟩,
    ⟨.SIDES_SEQUENTIAL,  .DENS_DOUBLE, 1280, 80, 16, 256⟩,
    ⟨.SIDES_SINGLE,      .DENS_DOUBLE, 1280, 80, 16, 256⟩,
    ⟨.SIDES_INTERLEAVED, .DENS_DOUBLE,  640, 40, 16, 256⟩,
    ⟨.SIDES_SEQUENTIAL,  .DENS_DOUBLE,  640, 40, 16, 256⟩,
    ⟨.SIDES_SINGLE,      .DENS_DOUBLE,  640, 40, 16, 256⟩,
    ⟨.SIDES_INTERLEAVED, .DENS_SINGLE,  800, 80, 10, 256⟩,
    ⟨.SIDES_SEQUENTIAL,  .DENS_SINGLE,  800, 80, 10, 256⟩,
    ⟨.SIDES_SINGLE,      .DENS_SINGLE,  800, 80, 10, 256⟩,
    ⟨.SIDES_INTERLEAVED, .DENS_SINGLE,  400, 40, 10, 256⟩,
    ⟨.SIDES_SEQUENTIAL,  .DENS_SINGLE,  400, 40, 10, 256⟩,
    ⟨.SIDES_SINGLE,      .DENS_SINGLE,  400, 40, 10, 256⟩ ]

/-- Every geometry the detectors can ever bind to a drive: the union of the
three catalog tables in sdf.c. -/
def sdf_geometries : List geometry_t :=
  adfs_new_formats ++ adfs_old_formats ++ dfs_formats

/-- C enum state_t from sdf.c. -/
inductive state_t
  | ST_IDLE
  | ST_NOTFOUND
  | ST_READSECTOR
  | ST_WRITESECTOR
  | ST_READ_ADDR0
  | ST_READ_ADDR1
  | ST_READ_ADDR2
  | ST_READ_ADDR3
  | ST_READ_ADDR4
  | ST_READ_ADDR5
  | ST_READ_ADDR6
  | ST_FORMAT
deriving DecidableEq, Repr

/-- The three WD1770 host-board wiring variants (model.h / wd1770.c). -/
inductive wd1770_board
  | WD1770_ACORN
  | WD1770_MASTER
  | WD1770_SOLIDISK
deriving DecidableEq, Repr

/-- The combined mutable state of the storage subsystem: the wd1770 struct and
the file-scope globals of wd1770.c, disc.c and sdf.c.  Per-drive arrays become
functions from the drive index; each drive's open image file is modelled as a
total byte-content function `file` plus a position `fpos` (so `fseek` sets the
position, `getc` reads the byte at the position and advances it, `putc` stores
a byte and advances it). `bound d` records whether sdf_load has filled drive
d's operation table in `drives[]`. -/
structure EmuState where
  -- wd1770.c: struct wd1770 and file-scope globals
  command : Nat
  sector : Nat
  track : Nat
  status : Nat
  data : Nat
  ctrl : Nat
  curside : Int
  curtrack : Int
  density : Int
  written : Nat
  stepdir : Int
  fdc_byte : Nat
  board : wd1770_board
  -- disc.c globals
  curdrive : Nat
  nmi : Nat
  fdc_time : Int
  motoron : Bool
  motorspin : Nat
  writeprot : Nat → Bool
  oldtrack : Nat → Int
  disc_notfound : Nat
  bound : Nat → Bool
  -- sdf.c globals
  geometry : Nat → Option geometry_t
  fp_open : Nat → Bool
  current_track : Nat → Nat
  sdf_state : state_t
  count : Nat
  sdf_time : Int
  sdf_drive : Nat
  sdf_side : Nat
  sdf_track : Nat
  sdf_sector : Nat
  fpos : Nat → Nat
  file : Nat → Nat → Nat

/-- Point update of a one-argument function (a C array store). -/
def upd {α : Type} (f : Nat → α) (i : Nat) (v : α) : Nat → α :=
  fun j => if j = i then v else f j

/-- Conversion of a C int to uint8_t (the truncation applied when an int is
stored into a uint8_t variable or passed as a uint8_t parameter). -/
def toU8 (i : Int) : Nat := (i % 256).toNat

/-- Decrement of the uint16_t global count with wraparound: the C `--count`. -/
def dec16 (n : Nat) : Nat := if n = 0 then 65535 else n - 1

/-- Increment of the uint16_t global count with wraparound: the C `count++`. -/
def inc16 (n : Nat) : Nat := (n + 1) % 65536

/-- Clearing of bit 1 of an int flag word: the C `x &= ~2`. -/
def clear2 (n : Nat) : Nat := if n.testBit 1 then n - 2 else n

/-- Events recording which FDC completion callback the backend invokes and, for
the data-ready callback, the delivered byte.  The state effects of the
callbacks (they are wired to the wd1770_* implementations) are applied to the
state as well; the event list is the observable trace. -/
inductive FdcEv
  | ev_data (b : Nat)
  | ev_finishread
  | ev_notfound
  | ev_writeprotect
deriving DecidableEq, Repr

/-- Macro track0 from wd1770.c, line 75: `(wd1770.curtrack ? 4 : 0)`.  Note it
yields 4 exactly when the current track is nonzero. -/
def track0 (s : EmuState) : Nat := if s.curtrack ≠ 0 then 4 else 0

/-- wd1770_spinup from wd1770.c. -/
def wd1770_spinup (s : EmuState) : EmuState :=
  { s with status := s.status ||| 0x80, motoron := true, motorspin := 0 }

/-- wd1770_spindown from wd1770.c (`status &= ~0x80`; status is a uint8_t). -/
def wd1770_spindown (s : EmuState) : EmuState :=
  { s with status := s.status &&& 0x7F, motoron := false }

/-- wd1770_setspindown from wd1770.c. -/
def wd1770_setspindown (s : EmuState) : EmuState :=
  { s with motorspin := 45000 }

/-- wd1770_data from wd1770.c: the fdc_data (data-ready) callback.  The dat
parameter is a uint8_t, so the int argument at the call sites is truncated. -/
def wd1770_data (dat : Nat) (s : EmuState) : EmuState :=
  { s with data := dat % 256, status := s.status ||| 2, nmi := s.nmi ||| 2 }

/-- wd1770_finishread from wd1770.c: the fdc_finishread callback. -/
def wd1770_finishread (s : EmuState) : EmuState :=
  { s with fdc_time := 200 }

/-- Board test `WD1770 == WD1770_ACORN || WD1770 == WD1770_MASTER` used by the
interrupt-conditional callbacks in wd1770.c. -/
def nmi_board (b : wd1770_board) : Bool :=
  b = wd1770_board.WD1770_ACORN ∨ b = wd1770_board.WD1770_MASTER

/-- wd1770_notfound from wd1770.c: the fdc_notfound callback. -/
def wd1770_notfound (s : EmuState) : EmuState :=
  wd1770_spindown
    { s with fdc_time := 0, nmi := if nmi_board s.board then 1 else 0,
             status := 0x90 }

/-- wd1770_writeprotect from wd1770.c: the fdc_writeprotect callback. -/
def wd1770_writeprotect (s : EmuState) : EmuState :=
  wd1770_spindown
    { s with fdc_time := 0, nmi := if nmi_board s.board then 1 else 0,
             status := 0xC0 }

/-- wd1770_getdata from wd1770.c: the fdc_getdata (data-request pull)
callback.  Returns -1 when no byte has been latched since the last pull
(underrun), otherwise the latched data byte, clearing the written flag; when
the pulled byte is not the last, it re-raises the data-request status bit and
interrupt. -/
def wd1770_getdata (last : Bool) (s : EmuState) : Int × EmuState :=
  if s.written = 0 then (-1, s)
  else
    let s1 := if last then s
              else { s with nmi := s.nmi ||| 2, status := s.status ||| 2 }
    ((s1.data : Int), { s1 with written := 0 })

/-- sdf_close from sdf.c. -/
def sdf_close (drive : Nat) (s : EmuState) : EmuState :=
  if drive < 2 then
    { s with geometry := upd s.geometry drive none,
             fp_open := upd s.fp_open drive false }
  else s

/-- sdf_seek from sdf.c: stores the int track into the uint8_t array. -/
def sdf_seek (drive : Nat) (track : Int) (s : EmuState) : EmuState :=
  if drive < 2 then
    { s with current_track := upd s.current_track drive (toU8 track) }
  else s

/-- The uint32_t modulus. -/
def M32 : Nat := 4294967296

/-- The byte offset computed by io_seek in sdf.c, with uint32_t wraparound
made explicit (sector, track and side are the already-truncated uint8_t
parameters). -/
def io_seek_offset (geo : geometry_t) (sector track side : Nat) : Nat :=
  let track_bytes := (geo.sectors_per_track * geo.sector_size) % M32
  let offset :=
    if side = 0 then
      let o := (track * track_bytes) % M32
      if geo.sides = sides_t.SIDES_INTERLEAVED then (o * 2) % M32 else o
    else
      if geo.sides = sides_t.SIDES_SEQUENTIAL then
        ((track + geo.tracks) * track_bytes) % M32
      else
        ((track * 2 + 1) * track_bytes) % M32
  (offset + sector * geo.sector_size) % M32

/-- io_seek from sdf.c: fseek(sdf_fp[drive], offset, SEEK_SET). -/
def io_seek (geo : geometry_t) (drive sector track side : Nat) (s : EmuState) :
    EmuState :=
  { s with fpos := upd s.fpos drive (io_seek_offset geo sector track side) }

/-- The shared guard-failure exit of the four transfer-initiating sdf
operations: `count = 500; state = ST_NOTFOUND;`. -/
def notfound_setup (s : EmuState) : EmuState :=
  { s with count := 500, sdf_state := state_t.ST_NOTFOUND }

/-- The density guard shared by the four transfer-initiating sdf operations:
`(!density && geo->density == DENS_SINGLE) || (density && geo->density ==
DENS_DOUBLE)`. -/
def dens_ok (density : Int) (geo : geometry_t) : Bool :=
  (density == 0 && geo.density == density_t.DENS_SINGLE) ||
  (!(density == 0) && geo.density == density_t.DENS_DOUBLE)

/-- sdf_readsector from sdf.c. -/
def sdf_readsector (drive : Nat) (sector track side density : Int)
    (s : EmuState) : EmuState :=
  if s.sdf_state = state_t.ST_IDLE then
    if drive < 2 then
      match s.geometry drive with
      | some geo =>
        if dens_ok density geo then
          if track == ((s.current_track drive : Nat) : Int) &&
             decide (0 ≤ track) && decide (track < (geo.tracks : Int)) then
            if decide (0 ≤ sector) &&
               decide (sector < (geo.sectors_per_track : Int)) then
              if side == 0 || !(geo.sides == sides_t.SIDES_SINGLE) then
                let s1 := io_seek geo drive (toU8 sector) (toU8 track)
                  (toU8 side) s
                { s1 with count := geo.sector_size, sdf_drive := drive % 256,
                          sdf_state := state_t.ST_READSECTOR }
              else notfound_setup s
            else notfound_setup s
          else notfound_setup s
        else notfound_setup s
      | none => notfound_setup s
    else notfound_setup s
  else s

/-- sdf_writesector from sdf.c. -/
def sdf_writesector (drive : Nat) (sector track side density : Int)
    (s : EmuState) : EmuState :=
  if s.sdf_state = state_t.ST_IDLE then
    if drive < 2 then
      match s.geometry drive with
      | some geo =>
        if dens_ok density geo then
          if track == ((s.current_track drive : Nat) : Int) &&
             decide (0 ≤ track) && decide (track < (geo.tracks : Int)) then
            if decide (0 ≤ sector) &&
               decide (sector < (geo.sectors_per_track : Int)) then
              if side == 0 || !(geo.sides == sides_t.SIDES_SINGLE) then
                let s1 := io_seek geo drive (toU8 sector) (toU8 track)
                  (toU8 side) s
                { s1 with count := geo.sector_size, sdf_drive := drive % 256,
                          sdf_side := toU8 side, sdf_track := toU8 track,
                          sdf_sector := toU8 sector, sdf_time := -20,
                          sdf_state := state_t.ST_WRITESECTOR }
              else notfound_setup s
            else notfound_setup s
          else notfound_setup s
        else notfound_setup s
      | none => notfound_setup s
    else notfound_setup s
  else s

/-- sdf_readaddress from sdf.c. -/
def sdf_readaddress (drive : Nat) (track side density : Int)
    (s : EmuState) : EmuState :=
  if s.sdf_state = state_t.ST_IDLE then
    if drive < 2 then
      match s.geometry drive with
      | some geo =>
        if dens_ok density geo then
          if track == ((s.current_track drive : Nat) : Int) &&
             decide (0 ≤ track) && decide (track < (geo.tracks : Int)) then
            if side == 0 || !(geo.sides == sides_t.SIDES_SINGLE) then
              { s with sdf_drive := drive % 256, sdf_side := toU8 side,
                       sdf_track := toU8 track,
                       sdf_state := state_t.ST_READ_ADDR0 }
            else notfound_setup s
          else notfound_setup s
        else notfound_setup s
      | none => notfound_setup s
    else notfound_setup s
  else s

/-- sdf_format from sdf.c.  NOTE: in the source the success branch sets
`state = ST_FORMAT` but, unlike the other three operations, has no `return`
statement, so control falls through to `count = 500; state = ST_NOTFOUND;`
unconditionally; the embedding reproduces that fall-through. -/
def sdf_format (drive : Nat) (track side density : Int)
    (s : EmuState) : EmuState :=
  if s.sdf_state = state_t.ST_IDLE then
    if drive < 2 then
      match s.geometry drive with
      | some geo =>
        if dens_ok density geo then
          if track == ((s.current_track drive : Nat) : Int) &&
             decide (0 ≤ track) && decide (track < (geo.tracks : Int)) then
            if side == 0 || !(geo.sides == sides_t.SIDES_SINGLE) then
              let s1 := io_seek geo drive 0 (toU8 track) (toU8 side) s
              let s2 := { s1 with sdf_drive := drive % 256,
                                  sdf_side := toU8 side,
                                  sdf_track := toU8 track, sdf_sector := 0,
                                  sdf_state := state_t.ST_FORMAT }
              notfound_setup s2
            else notfound_setup s
          else notfound_setup s
        else notfound_setup s
      | none => notfound_setup s
    else notfound_setup s
  else s

/-- Reading one byte from drive d's image file at the current position and
advancing it (the C `getc(sdf_fp[d])`; the file model is total, standing for
in-bounds reads of an image of the detected size). -/
def getcFile (d : Nat) (s : EmuState) : Nat × EmuState :=
  (s.file d (s.fpos d), { s with fpos := upd s.fpos d (s.fpos d + 1) })

/-- Writing one byte to drive d's image file at the current position and
advancing it (the C `putc(c, sdf_fp[d])`: the int is truncated to the stored
unsigned char). -/
def putcFile (c : Int) (d : Nat) (s : EmuState) : EmuState :=
  { s with file := upd s.file d (upd (s.file d) (s.fpos d) (toU8 c)),
           fpos := upd s.fpos d (s.fpos d + 1) }

/-- The body of sdf_poll in sdf.c: the switch over the transfer state that
runs on the divided poll ticks (once every 17 raw polls, see sdf_poll).
Returns the new state and the trace of completion callbacks invoked on this
tick; the wd1770_* state effects of those callbacks are applied as well, as
they are in the running configuration. -/
def sdf_poll_body (s : EmuState) : EmuState × List FdcEv :=
  match s.sdf_state with
  | state_t.ST_IDLE => (s, [])
  | state_t.ST_NOTFOUND =>
      let c := dec16 s.count
      let s1 := { s with count := c }
      if c = 0 then
        ({ wd1770_notfound s1 with sdf_state := state_t.ST_IDLE },
         [FdcEv.ev_notfound])
      else (s1, [])
  | state_t.ST_READSECTOR =>
      let (b, s1) := getcFile s.sdf_drive s
      let s2 := wd1770_data b s1
      let c := dec16 s2.count
      let s3 := { s2 with count := c }
      if c = 0 then
        ({ wd1770_finishread s3 with sdf_state := state_t.ST_IDLE },
         [FdcEv.ev_data (b % 256), FdcEv.ev_finishread])
      else (s3, [FdcEv.ev_data (b % 256)])
  | state_t.ST_WRITESECTOR =>
      if s.writeprot s.sdf_drive then
        ({ wd1770_writeprotect s with sdf_state := state_t.ST_IDLE },
         [FdcEv.ev_writeprotect])
      else
        let c := dec16 s.count
        let s1 := { s with count := c }
        let (r, s2) := wd1770_getdata (c = 0) s1
        if r = -1 then
          ({ s2 with count := inc16 s2.count }, [])
        else
          let s3 := putcFile r s2.sdf_drive s2
          if s3.count = 0 then
            ({ wd1770_finishread s3 with sdf_state := state_t.ST_IDLE },
             [FdcEv.ev_finishread])
          else (s3, [])
  | state_t.ST_READ_ADDR0 =>
      ({ wd1770_data s.sdf_track s with sdf_state := state_t.ST_READ_ADDR1 },
       [FdcEv.ev_data (s.sdf_track % 256)])
  | state_t.ST_READ_ADDR1 =>
      ({ wd1770_data s.sdf_side s with sdf_state := state_t.ST_READ_ADDR2 },
       [FdcEv.ev_data (s.sdf_side % 256)])
  | state_t.ST_READ_ADDR2 =>
      ({ wd1770_data s.sdf_sector s with sdf_state := state_t.ST_READ_ADDR3 },
       [FdcEv.ev_data (s.sdf_sector % 256)])
  | state_t.ST_READ_ADDR3 =>
      ({ wd1770_data 1 s with sdf_state := state_t.ST_READ_ADDR4 },
       [FdcEv.ev_data 1])
  | state_t.ST_READ_ADDR4 =>
      ({ wd1770_data 0 s with sdf_state := state_t.ST_READ_ADDR5 },
       [FdcEv.ev_data 0])
  | state_t.ST_READ_ADDR5 =>
      ({ wd1770_data 0 s with sdf_state := state_t.ST_READ_ADDR6 },
       [FdcEv.ev_data 0])
  | state_t.ST_READ_ADDR6 =>
      -- NOTE: the source fires fdc_finishread and advances the sector with
      -- wraparound but never resets state to ST_IDLE here.
      let s1 := wd1770_finishread s
      let sec := (s1.sdf_sector + 1) % 256
      let sec2 :=
        match s1.geometry s1.sdf_drive with
        | some geo => if sec = geo.sectors_per_track then 0 else sec
        | none => sec
      ({ s1 with sdf_sector := sec2 }, [FdcEv.ev_finishread])
  | state_t.ST_FORMAT =>
      if s.writeprot s.sdf_drive then
        ({ wd1770_writeprotect s with sdf_state := state_t.ST_IDLE },
         [FdcEv.ev_writeprotect])
      else
        let c := dec16 s.count
        let s1 := { s with count := c }
        if c = 0 then
          let sec := (s1.sdf_sector + 1) % 256
          let s2 := { s1 with sdf_sector := sec }
          match s2.geometry s2.sdf_drive with
          | some geo =>
              if geo.sectors_per_track ≤ sec then (s2, [])
              else (putcFile 0 s2.sdf_drive s2, [])
          | none => (s2, [])
        else (putcFile 0 s1.sdf_drive s1, [])

/-- sdf_poll from sdf.c: the raw per-emulation-tick entry point, which
self-throttles with the sdf_time divider (`if (++sdf_time <= 16) return;
sdf_time = 0;`) and then runs the switch body. -/
def sdf_poll (s : EmuState) : EmuState × List FdcEv :=
  if s.sdf_time + 1 ≤ 16 then ({ s with sdf_time := s.sdf_time + 1 }, [])
  else sdf_poll_body { s with sdf_time := 0 }

/-- sdf_abort from sdf.c. -/
def sdf_abort (s : EmuState) : EmuState :=
  { s with sdf_state := state_t.ST_IDLE }

/-- Iteration of n divided poll ticks, concatenating the callback traces. -/
def sdf_run : Nat → EmuState → EmuState × List FdcEv
  | 0, s => (s, [])
  | n + 1, s =>
      let p := sdf_poll_body s
      let q := sdf_run n p.1
      (q.1, p.2 ++ q.2)

/-- Trace of the drive-dispatch calls issued by a controller register write. -/
inductive DiscOp
  | op_seek (drive : Nat) (track : Int)
  | op_readsector (drive : Nat) (sector track side density : Int)
  | op_writesector (drive : Nat) (sector track side density : Int)
  | op_readaddress (drive : Nat) (track side density : Int)
  | op_format (drive : Nat) (track side density : Int)
deriving DecidableEq, Repr

/-- disc_seek from disc.c: forwards to the bound backend's seek (sdf_seek when
an SDF image is loaded) and updates oldtrack (the ddnoise sound side effect is
external). -/
def disc_seek (drive : Nat) (track : Int) (s : EmuState) : EmuState :=
  let s1 := if s.bound drive then sdf_seek drive track s else s
  { s1 with oldtrack := upd s1.oldtrack drive track }

/-- disc_readsector from disc.c: forwards to the bound backend, else starts
the dispatch layer's own 10000-tick not-found countdown. -/
def disc_readsector (drive : Nat) (sector track side density : Int)
    (s : EmuState) : EmuState :=
  if s.bound drive then sdf_readsector drive sector track side density s
  else { s with disc_notfound := 10000 }

/-- disc_writesector from disc.c. -/
def disc_writesector (drive : Nat) (sector track side density : Int)
    (s : EmuState) : EmuState :=
  if s.bound drive then sdf_writesector drive sector track side density s
  else { s with disc_notfound := 10000 }

/-- disc_readaddress from disc.c. -/
def disc_readaddress (drive : Nat) (track side density : Int)
    (s : EmuState) : EmuState :=
  if s.bound drive then sdf_readaddress drive track side density s
  else { s with disc_notfound := 10000 }

/-- disc_format from disc.c. -/
def disc_format (drive : Nat) (track side density : Int)
    (s : EmuState) : EmuState :=
  if s.bound drive then sdf_format drive track side density s
  else { s with disc_notfound := 10000 }

/-- write_1770 from wd1770.c: a write to one of the four chip registers
selected by `addr & 0x03`.  Returns the new state and the trace of
drive-dispatch calls issued.  The command-register case reproduces the
source exactly, including: the busy rejection at the top; the evaluation
order of the track0 macro relative to the curtrack updates; the absent
cases for nibbles 0x9, 0xB and 0xE (they hit the default branch); and the
fall-through from the write-sector case (0xA) into the read-address case
(0xC). -/
def write_1770 (addr val : Nat) (s : EmuState) : EmuState × List DiscOp :=
  let val := val % 256
  match addr % 4 with
  | 0 =>
    if s.status &&& 1 = 1 ∧ val >>> 4 ≠ 0xD then (s, [])
    else
      let s := { s with command := val }
      let s := if val >>> 4 ≠ 0xD then wd1770_spinup s else s
      match val >>> 4 with
      | 0x0 =>
          let s := { s with curtrack := 0 }
          let s := { s with status := 0x80 ||| 0x21 ||| track0 s }
          (disc_seek s.curdrive 0 s, [DiscOp.op_seek s.curdrive 0])
      | 0x1 =>
          let s := { s with curtrack := (s.data : Int) }
          let s := { s with status := 0x80 ||| 0x21 ||| track0 s }
          (disc_seek s.curdrive s.curtrack s,
           [DiscOp.op_seek s.curdrive s.curtrack])
      | 0x2 | 0x3 =>
          let s := { s with status := 0x80 ||| 0x21 ||| track0 s }
          let s := { s with curtrack := s.curtrack + s.stepdir }
          let s := if s.curtrack < 0 then { s with curtrack := 0 } else s
          (disc_seek s.curdrive s.curtrack s,
           [DiscOp.op_seek s.curdrive s.curtrack])
      | 0x4 | 0x5 =>
          let s := { s with status := 0x80 ||| 0x21 ||| track0 s }
          let s := { s with curtrack := s.curtrack + 1 }
          let s1 := disc_seek s.curdrive s.curtrack s
          ({ s1 with stepdir := 1 }, [DiscOp.op_seek s.curdrive s.curtrack])
      | 0x6 | 0x7 =>
          let s := { s with status := 0x80 ||| 0x21 ||| track0 s }
          let s := { s with curtrack := s.curtrack - 1 }
          let s := if s.curtrack < 0 then { s with curtrack := 0 } else s
          let s1 := disc_seek s.curdrive s.curtrack s
          ({ s1 with stepdir := -1 }, [DiscOp.op_seek s.curdrive s.curtrack])
      | 0x8 =>
          let s := { s with status := 0x80 ||| 0x1 }
          let s1 := disc_readsector s.curdrive (s.sector : Int) (s.track : Int)
            s.curside s.density s
          ({ s1 with fdc_byte := 0 },
           [DiscOp.op_readsector s.curdrive (s.sector : Int) (s.track : Int)
              s.curside s.density])
      | 0xA =>
          let s := { s with status := 0x80 ||| 0x1 }
          let s := disc_writesector s.curdrive (s.sector : Int) (s.track : Int)
            s.curside s.density s
          let s := { s with fdc_byte := 0, nmi := s.nmi ||| 2,
                            status := s.status ||| 2, written := 0 }
          -- fall-through into the read-address case (no break in the source)
          let s := { s with status := 0x80 ||| 0x1 }
          let s1 := disc_readaddress s.curdrive (s.track : Int) s.curside
            s.density s
          ({ s1 with fdc_byte := 0 },
           [DiscOp.op_writesector s.curdrive (s.sector : Int) (s.track : Int)
              s.curside s.density,
            DiscOp.op_readaddress s.curdrive (s.track : Int) s.curside
              s.density])
      | 0xC =>
          let s := { s with status := 0x80 ||| 0x1 }
          let s1 := disc_readaddress s.curdrive (s.track : Int) s.curside
            s.density s
          ({ s1 with fdc_byte := 0 },
           [DiscOp.op_readaddress s.curdrive (s.track : Int) s.curside
              s.density])
      | 0xD =>
          let s := { s with fdc_time := 0 }
          let s := if s.status &&& 1 ≠ 0 then { s with status := s.status &&& 0xFE }
                   else { s with status := 0x80 ||| track0 s }
          let s := { s with nmi := if val &&& 8 ≠ 0 && nmi_board s.board
                                   then 1 else 0 }
          (wd1770_setspindown s, [])
      | 0xF =>
          let s := { s with status := 0x80 ||| 0x1 }
          (disc_format s.curdrive (s.track : Int) s.curside s.density s,
           [DiscOp.op_format s.curdrive (s.track : Int) s.curside s.density])
      | _ =>
          let s := { s with fdc_time := 0 }
          let s := if nmi_board s.board then { s with nmi := 1 } else s
          let s := { s with status := 0x90 }
          (wd1770_spindown s, [])
  | 1 => ({ s with track := val }, [])
  | 2 => ({ s with sector := val }, [])
  | _ =>
      ({ s with nmi := clear2 s.nmi, status := s.status &&& 0xFD,
                data := val, written := 1 }, [])

/-- The per-drive operation table of disc.c (DRIVE struct), reduced to the
close slot, which is the only one disc_close consults; the slot is a nullable
function pointer over an abstract state type. -/
structure DRIVE (σ : Type) where
  close : Option (Nat → σ → σ)

/-- disc_close from disc.c: `if (drives[0].close) drives[0].close(drive);` —
it consults drive 0's close slot only, whatever drive index it is asked to
close. -/
def disc_close {σ : Type} (drives : Nat → DRIVE σ) (drive : Nat) (s : σ) : σ :=
  match (drives 0).close with
  | some f => f drive s
  | none => s

/-- The emulated CPU latching a byte into the FDC data register: write_1770
with the register-select address bits equal to 3. -/
def cpu_write_data (v : Nat) (s : EmuState) : EmuState := (write_1770 3 v s).1

/-- Driver for a write-sector transfer: before each divided poll tick the CPU
latches the next byte of the sequence into the data register, then the tick
runs; the traces are concatenated. -/
def writeRun : List Nat → EmuState → EmuState × List FdcEv
  | [], s => (s, [])
  | d :: ds, s =>
      let s1 := cpu_write_data d s
      let p := sdf_poll_body s1
      let q := writeRun ds p.1
      (q.1, p.2 ++ q.2)

/-- The bytes delivered through the data-ready callback, in order. -/
def dataBytes (evs : List FdcEv) : List Nat :=
  evs.filterMap fun e =>
    match e with
    | FdcEv.ev_data b => some b
    | _ => none

/-- The n bytes of drive d's image starting at position p, as the data-ready
callback delivers them (truncated to uint8_t at the callback boundary). -/
def readBytes (f : Nat → Nat → Nat) (d : Nat) : Nat → Nat → List Nat
  | _, 0 => []
  | p, n + 1 => f d p % 256 :: readBytes f d (p + 1) n

/-- Sequential store of a byte list into drive d's image starting at position
p (each byte truncated to unsigned char as putc stores it). -/
def writeBytes (d : Nat) : (Nat → Nat → Nat) → Nat → List Nat → Nat → Nat → Nat
  | f, _, [] => f
  | f, p, b :: bs => writeBytes d (upd f d (upd (f d) p (b % 256))) (p + 1) bs

/-- The guard conjunction of sdf_readsector/sdf_writesector (everything the
nested ifs after the idle test require for the transfer to start). -/
def rw_guards (s : EmuState) (drive : Nat)
    (sector track side density : Int) : Prop :=
  drive < 2 ∧ ∃ geo, s.geometry drive = some geo ∧
    dens_ok density geo = true ∧
    track = ((s.current_track drive : Nat) : Int) ∧
    0 ≤ track ∧ track < (geo.tracks : Int) ∧
    0 ≤ sector ∧ sector < (geo.sectors_per_track : Int) ∧
    (side = 0 ∨ geo.sides ≠ sides_t.SIDES_SINGLE)

/-- The guard conjunction of sdf_readaddress/sdf_format (no sector check). -/
def ra_guards (s : EmuState) (drive : Nat) (track side density : Int) : Prop :=
  drive < 2 ∧ ∃ geo, s.geometry drive = some geo ∧
    dens_ok density geo = true ∧
    track = ((s.current_track drive : Nat) : Int) ∧
    0 ≤ track ∧ track < (geo.tracks : Int) ∧
    (side = 0 ∨ geo.sides ≠ sides_t.SIDES_SINGLE)

/-- Geometry "Acorn ADFS L" from the catalog. -/
def adfsL : geometry_t :=
  ⟨sides_t.SIDES_INTERLEAVED, density_t.DENS_DOUBLE, 2560, 80, 16, 256⟩

/-- Geometry "Acorn ADFS F" from the catalog: the only quad-density entry. -/
def adfsF : geometry_t :=
  ⟨sides_t.SIDES_INTERLEAVED, density_t.DENS_QUAD, 1600, 80, 10, 1024⟩

/-- The zero-initialised emulator state (all C globals start zeroed, drives
unbound, the backend idle). -/
def st0 : EmuState where
  command := 0
  sector := 0
  track := 0
  status := 0
  data := 0
  ctrl := 0
  curside := 0
  curtrack := 0
  density := 0
  written := 0
  stepdir := 0
  fdc_byte := 0
  board := wd1770_board.WD1770_ACORN
  curdrive := 0
  nmi := 0
  fdc_time := 0
  motoron := false
  motorspin := 0
  writeprot := fun _ => false
  oldtrack := fun _ => 0
  disc_notfound := 0
  bound := fun _ => false
  geometry := fun _ => none
  fp_open := fun _ => false
  current_track := fun _ => 0
  sdf_state := state_t.ST_IDLE
  count := 0
  sdf_time := 0
  sdf_drive := 0
  sdf_side := 0
  sdf_track := 0
  sdf_sector := 0
  fpos := fun _ => 0
  file := fun _ _ => 0

/-- The zero state after loading an Acorn ADFS L image in drive 0. -/
def stL : EmuState :=
  { st0 with bound := upd st0.bound 0 true,
             geometry := upd st0.geometry 0 (some adfsL),
             fp_open := upd st0.fp_open 0 true }

/-- The zero state after loading an Acorn ADFS F image in drive 0. -/
def stF : EmuState :=
  { st0 with bound := upd st0.bound 0 true,
             geometry := upd st0.geometry 0 (some adfsF),
             fp_open := upd st0.fp_open 0 true }

theorem toU8_natCast (n : Nat) : toU8 (n : Int) = n % 256 := by
  unfold toU8
  omega

theorem inc16_dec16 {n : Nat} (h : n < 65536) : inc16 (dec16 n) = n := by
  unfold inc16 dec16
  rcases Nat.eq_zero_or_pos n with h0 | h0
  · subst h0; rfl
  · rw [if_neg (Nat.pos_iff_ne_zero.mp h0)]
    omega

theorem sdf_readsector_accept {s : EmuState} {geo : geometry_t}
    {drive : Nat} {sector track side density : Int}
    (hidle : s.sdf_state = state_t.ST_IDLE) (hdrive : drive < 2)
    (hgeo : s.geometry drive = some geo) (hdens : dens_ok density geo = true)
    (htr : track = ((s.current_track drive : Nat) : Int))
    (htlt : track < (geo.tracks : Int))
    (hs0 : 0 ≤ sector) (hslt : sector < (geo.sectors_per_track : Int))
    (hside : side = 0 ∨ geo.sides ≠ sides_t.SIDES_SINGLE) :
    sdf_readsector drive sector track side density s =
      { io_seek geo drive (toU8 sector) (toU8 track) (toU8 side) s with
        count := geo.sector_size, sdf_drive := drive % 256,
        sdf_state := state_t.ST_READSECTOR } := by
  have hb1 : (track == ((s.current_track drive : Nat) : Int) &&
      decide (0 ≤ track) && decide (track < (geo.tracks : Int))) = true := by
    subst htr
    simp [htlt, Int.natCast_nonneg]
  have hb2 : (decide (0 ≤ sector) &&
      decide (sector < (geo.sectors_per_track : Int))) = true := by
    simp [hs0, hslt]
  have hb3 : (side == 0 || !(geo.sides == sides_t.SIDES_SINGLE)) = true := by
    rcases hside with h | h <;> simp [h]
  simp only [sdf_readsector, hidle, hgeo, hb1, hb2, hb3, hdens,
    if_true, if_pos hdrive]

theorem sdf_writesector_accept {s : EmuState} {geo : geometry_t}
    {drive : Nat} {sector track side density : Int}
    (hidle : s.sdf_state = state_t.ST_IDLE) (hdrive : drive < 2)
    (hgeo : s.geometry drive = some geo) (hdens : dens_ok density geo = true)
    (htr : track = ((s.current_track drive : Nat) : Int))
    (htlt : track < (geo.tracks : Int))
    (hs0 : 0 ≤ sector) (hslt : sector < (geo.sectors_per_track : Int))
    (hside : side = 0 ∨ geo.sides ≠ sides_t.SIDES_SINGLE) :
    sdf_writesector drive sector track side density s =
      { io_seek geo drive (toU8 sector) (toU8 track) (toU8 side) s with
        count := geo.sector_size, sdf_drive := drive % 256,
        sdf_side := toU8 side, sdf_track := toU8 track,
        sdf_sector := toU8 sector, sdf_time := -20,
        sdf_state := state_t.ST_WRITESECTOR } := by
  have hb1 : (track == ((s.current_track drive : Nat) : Int) &&
      decide (0 ≤ track) && decide (track < (geo.tracks : Int))) = true := by
    subst htr
    simp [htlt, Int.natCast_nonneg]
  have hb2 : (decide (0 ≤ sector) &&
      decide (sector < (geo.sectors_per_track : Int))) = true := by
    simp [hs0, hslt]
  have hb3 : (side == 0 || !(geo.sides == sides_t.SIDES_SINGLE)) = true := by
    rcases hside with h | h <;> simp [h]
  simp only [sdf_writesector, hidle, hgeo, hb1, hb2, hb3, hdens,
    if_true, if_pos hdrive]

theorem sdf_readaddress_accept {s : EmuState} {geo : geometry_t}
    {drive : Nat} {track side density : Int}
    (hidle : s.sdf_state = state_t.ST_IDLE) (hdrive : drive < 2)
    (hgeo : s.geometry drive = some geo) (hdens : dens_ok density geo = true)
    (htr : track = ((s.current_track drive : Nat) : Int))
    (htlt : track < (geo.tracks : Int))
    (hside : side = 0 ∨ geo.sides ≠ sides_t.SIDES_SINGLE) :
    sdf_readaddress drive track side density s =
      { s with sdf_drive := drive % 256, sdf_side := toU8 side,
               sdf_track := toU8 track,
               sdf_state := state_t.ST_READ_ADDR0 } := by
  have hb1 : (track == ((s.current_track drive : Nat) : Int) &&
      decide (0 ≤ track) && decide (track < (geo.tracks : Int))) = true := by
    subst htr
    simp [htlt, Int.natCast_nonneg]
  have hb3 : (side == 0 || !(geo.sides == sides_t.SIDES_SINGLE)) = true := by
    rcases hside with h | h <;> simp [h]
  simp only [sdf_readaddress, hidle, hgeo, hb1, hb3, hdens,
    if_true, if_pos hdrive]

theorem sdf_format_accept {s : EmuState} {geo : geometry_t}
    {drive : Nat} {track side density : Int}
    (hidle : s.sdf_state = state_t.ST_IDLE) (hdrive : drive < 2)
    (hgeo : s.geometry drive = some geo) (hdens : dens_ok density geo = true)
    (htr : track = ((s.current_track drive : Nat) : Int))
    (htlt : track < (geo.tracks : Int))
    (hside : side = 0 ∨ geo.sides ≠ sides_t.SIDES_SINGLE) :
    sdf_format drive track side density s =
      notfound_setup
        { io_seek geo drive 0 (toU8 track) (toU8 side) s with
          sdf_drive := drive % 256, sdf_side := toU8 side,
          sdf_track := toU8 track, sdf_sector := 0,
          sdf_state := state_t.ST_FORMAT } := by
  have hb1 : (track == ((s.current_track drive : Nat) : Int) &&
      decide (0 ≤ track) && decide (track < (geo.tracks : Int))) = true := by
    subst htr
    simp [htlt, Int.natCast_nonneg]
  have hb3 : (side == 0 || !(geo.sides == sides_t.SIDES_SINGLE)) = true := by
    rcases hside with h | h <;> simp [h]
  simp only [sdf_format, hidle, hgeo, hb1, hb3, hdens,
    if_true, if_pos hdrive]

theorem sdf_readsector_reject {s : EmuState}
    {drive : Nat} {sector track side density : Int}
    (hidle : s.sdf_state = state_t.ST_IDLE)
    (hng : ¬ rw_guards s drive sector track side density) :
    sdf_readsector drive sector track side density s = notfound_setup s := by
  unfold sdf_readsector
  rw [if_pos hidle]
  by_cases hdrive : drive < 2
  · rw [if_pos hdrive]
    cases hgeo : s.geometry drive with
    | none => rfl
    | some geo =>
      dsimp only
      by_cases hdens : dens_ok density geo = true
      · rw [if_pos hdens]
        by_cases hb1 : (track == ((s.current_track drive : Nat) : Int) &&
            decide (0 ≤ track) && decide (track < (geo.tracks : Int))) = true
        · rw [if_pos hb1]
          by_cases hb2 : (decide (0 ≤ sector) &&
              decide (sector < (geo.sectors_per_track : Int))) = true
          · rw [if_pos hb2]
            by_cases hb3 : (side == 0 ||
                !(geo.sides == sides_t.SIDES_SINGLE)) = true
            · exfalso
              apply hng
              simp only [Bool.and_eq_true, Bool.or_eq_true, Bool.not_eq_true',
                beq_iff_eq, beq_eq_false_iff_ne, decide_eq_true_eq] at hb1 hb2 hb3
              exact ⟨hdrive, geo, hgeo, hdens, hb1.1.1, hb1.1.2, hb1.2,
                hb2.1, hb2.2, hb3⟩
            · rw [if_neg hb3]
          · rw [if_neg hb2]
        · rw [if_neg hb1]
      · rw [if_neg hdens]
  · rw [if_neg hdrive]

theorem sdf_writesector_reject {s : EmuState}
    {drive : Nat} {sector track side density : Int}
    (hidle : s.sdf_state = state_t.ST_IDLE)
    (hng : ¬ rw_guards s drive sector track side density) :
    sdf_writesector drive sector track side density s = notfound_setup s := by
  unfold sdf_writesector
  rw [if_pos hidle]
  by_cases hdrive : drive < 2
  · rw [if_pos hdrive]
    cases hgeo : s.geometry drive with
    | none => rfl
    | some geo =>
      dsimp only
      by_cases hdens : dens_ok density geo = true
      · rw [if_pos hdens]
        by_cases hb1 : (track == ((s.current_track drive : Nat) : Int) &&
            decide (0 ≤ track) && decide (track < (geo.tracks : Int))) = true
        · rw [if_pos hb1]
          by_cases hb2 : (decide (0 ≤ sector) &&
              decide (sector < (geo.sectors_per_track : Int))) = true
          · rw [if_pos hb2]
            by_cases hb3 : (side == 0 ||
                !(geo.sides == sides_t.SIDES_SINGLE)) = true
            · exfalso
              apply hng
              simp only [Bool.and_eq_true, Bool.or_eq_true, Bool.not_eq_true',
                beq_iff_eq, beq_eq_false_iff_ne, decide_eq_true_eq] at hb1 hb2 hb3
              exact ⟨hdrive, geo, hgeo, hdens, hb1.1.1, hb1.1.2, hb1.2,
                hb2.1, hb2.2, hb3⟩
            · rw [if_neg hb3]
          · rw [if_neg hb2]
        · rw [if_neg hb1]
      · rw [if_neg hdens]
  · rw [if_neg hdrive]

theorem sdf_readaddress_reject {s : EmuState}
    {drive : Nat} {track side density : Int}
    (hidle : s.sdf_state = state_t.ST_IDLE)
    (hng : ¬ ra_guards s drive track side density) :
    sdf_readaddress drive track side density s = notfound_setup s := by
  unfold sdf_readaddress
  rw [if_pos hidle]
  by_cases hdrive : drive < 2
  · rw [if_pos hdrive]
    cases hgeo : s.geometry drive with
    | none => rfl
    | some geo =>
      dsimp only
      by_cases hdens : dens_ok density geo = true
      · rw [if_pos hdens]
        by_cases hb1 : (track == ((s.current_track drive : Nat) : Int) &&
            decide (0 ≤ track) && decide (track < (geo.tracks : Int))) = true
        · rw [if_pos hb1]
          by_cases hb3 : (side == 0 ||
              !(geo.sides == sides_t.SIDES_SINGLE)) = true
          · exfalso
            apply hng
            simp only [Bool.and_eq_true, Bool.or_eq_true, Bool.not_eq_true',
              beq_iff_eq, beq_eq_false_iff_ne, decide_eq_true_eq] at hb1 hb3
            exact ⟨hdrive, geo, hgeo, hdens, hb1.1.1, hb1.1.2, hb1.2, hb3⟩
          · rw [if_neg hb3]
        · rw [if_neg hb1]
      · rw [if_neg hdens]
  · rw [if_neg hdrive]

theorem sdf_format_reject {s : EmuState}
    {drive : Nat} {track side density : Int}
    (hidle : s.sdf_state = state_t.ST_IDLE)
    (hng : ¬ ra_guards s drive track side density) :
    sdf_format drive track side density s = notfound_setup s := by
  unfold sdf_format
  rw [if_pos hidle]
  by_cases hdrive : drive < 2
  · rw [if_pos hdrive]
    cases hgeo : s.geometry drive with
    | none => rfl
    | some geo =>
      dsimp only
      by_cases hdens : dens_ok density geo = true
      · rw [if_pos hdens]
        by_cases hb1 : (track == ((s.current_track drive : Nat) : Int) &&
            decide (0 ≤ track) && decide (track < (geo.tracks : Int))) = true
        · rw [if_pos hb1]
          by_cases hb3 : (side == 0 ||
              !(geo.sides == sides_t.SIDES_SINGLE)) = true
          · exfalso
            apply hng
            simp only [Bool.and_eq_true, Bool.or_eq_true, Bool.not_eq_true',
              beq_iff_eq, beq_eq_false_iff_ne, decide_eq_true_eq] at hb1 hb3
            exact ⟨hdrive, geo, hgeo, hdens, hb1.1.1, hb1.1.2, hb1.2, hb3⟩
          · rw [if_neg hb3]
        · rw [if_neg hb1]
      · rw [if_neg hdens]
  · rw [if_neg hdrive]



/-- C1: while the controller's busy status bit (bit 0) is set, a
command-register write whose upper nibble is not 0xD (Force Interrupt) is
silently ignored: the whole controller/backend state is unchanged and no
drive-dispatch call is issued, so the dispatch operation already in flight
remains the only one. -/
theorem C1_busy_command_rejected (s : EmuState) (addr val : Nat)
    (haddr : addr % 4 = 0)
    (hbusy : s.status &&& 1 = 1) (hnib : (val % 256) >>> 4 ≠ 0xD) :
    write_1770 addr val s = (s, []) := by
  unfold write_1770
  rw [haddr]
  dsimp only
  rw [if_pos ⟨hbusy, hnib⟩]

/-- Witness for C1: a busy controller (status 0x81) ignores a Read Sector
command (0x80). -/
theorem C1_witness :
    write_1770 0 0x80 { st0 with status := 0x81 } =
      ({ st0 with status := 0x81 }, []) :=
  C1_busy_command_rejected { st0 with status := 0x81 } 0 0x80 (by decide)
    (by decide) (by decide)

/-- A concrete idle controller state at track 5 used to evaluate Restore. -/
def c9st : EmuState :=
  { st0 with status := 0x80, curtrack := 5, bound := upd st0.bound 0 true }

/-- C9 (code evaluation at the failing input): from an idle controller at
track 5, a Restore command (0x00) sets the current track to 0, issues seek(0)
to the drive-dispatch layer, and sets status 0xA1 — in which bit 2, the
track-0 bit of the chip's type-I status, is NOT set, because the track0
macro `(wd1770.curtrack ? 4 : 0)` yields 0 when the head is at track 0. -/
theorem C9_restore_track0_bit :
    (write_1770 0 0x00 c9st).1.curtrack = 0 ∧
    (write_1770 0 0x00 c9st).2 = [DiscOp.op_seek 0 0] ∧
    (write_1770 0 0x00 c9st).1.current_track 0 = 0 ∧
    (write_1770 0 0x00 c9st).1.status = 0xA1 ∧
    Nat.testBit (write_1770 0 0x00 c9st).1.status 2 = false := by
  decide

/-- C6 (code evaluation at the failing input): with an Acorn ADFS L image
bound in drive 0 and every guard passing (the same guard set accepts a read
sector on the same state), a format-track request does NOT leave the backend
in the formatting state: the missing return in sdf_format lets control fall
through into the not-found setup, so the backend starts the 500-tick
not-found countdown instead. -/
theorem C6_format_fall_through :
    dens_ok 1 adfsL = true ∧
    (sdf_readsector 0 0 0 0 1 stL).sdf_state = state_t.ST_READSECTOR ∧
    (sdf_format 0 0 0 1 stL).sdf_state = state_t.ST_NOTFOUND ∧
    (sdf_format 0 0 0 1 stL).count = 500 := by
  decide

/-- C7 (code evaluation at the failing input): after a guard-passing read
address on an ADFS L image, the six divided ticks deliver track, side,
sector and the three reserved bytes (1, 0, 0) and the seventh fires
finished and advances the address pointer, but the backend is left in
ST_READ_ADDR6 instead of idle: an eighth tick fires finished a second time
and a subsequent read-sector request is not accepted. -/
theorem C7_read_address_stuck :
    (sdf_run 7 (sdf_readaddress 0 0 0 1 stL)).2 =
      [FdcEv.ev_data 0, FdcEv.ev_data 0, FdcEv.ev_data 0, FdcEv.ev_data 1,
       FdcEv.ev_data 0, FdcEv.ev_data 0, FdcEv.ev_finishread] ∧
    (sdf_run 7 (sdf_readaddress 0 0 0 1 stL)).1.sdf_sector = 1 ∧
    (sdf_run 7 (sdf_readaddress 0 0 0 1 stL)).1.sdf_state =
      state_t.ST_READ_ADDR6 ∧
    (sdf_run 8 (sdf_readaddress 0 0 0 1 stL)).2 =
      [FdcEv.ev_data 0, FdcEv.ev_data 0, FdcEv.ev_data 0, FdcEv.ev_data 1,
       FdcEv.ev_data 0, FdcEv.ev_data 0, FdcEv.ev_finishread,
       FdcEv.ev_finishread] ∧
    (sdf_readsector 0 0 0 0 1
        (sdf_run 7 (sdf_readaddress 0 0 0 1 stL)).1).sdf_state =
      state_t.ST_READ_ADDR6 := by
  decide

/-- C10: disc_close consults only drive 0's close slot: when it is bound it
calls that function with the requested drive index (for the SDF backend this
is sdf_close, which does close the requested drive); when drive 0's slot is
empty, disc_close does nothing at all — drive d's file handle stays open and
its geometry stays bound even when drive d itself has a close function — and
drive 1's close slot is never consulted. -/
theorem C10_disc_close :
    (∀ (σ : Type) (drives : Nat → DRIVE σ) (f : Nat → σ → σ) (d : Nat) (s : σ),
        (drives 0).close = some f → disc_close drives d s = f d s) ∧
    (∀ (drives : Nat → DRIVE EmuState) (f1 : Nat → EmuState → EmuState)
        (d : Nat) (s : EmuState),
        (drives 0).close = none → (drives 1).close = some f1 →
        disc_close drives d s = s ∧
        (disc_close drives d s).fp_open d = s.fp_open d ∧
        (disc_close drives d s).geometry d = s.geometry d) ∧
    (∀ (σ : Type) (drives : Nat → DRIVE σ) (c : Option (Nat → σ → σ))
        (d : Nat) (s : σ),
        disc_close (fun i => if i = 1 then DRIVE.mk c else drives i) d s =
          disc_close drives d s) ∧
    (∀ (drives : Nat → DRIVE EmuState) (d : Nat) (s : EmuState),
        (drives 0).close = some sdf_close →
        disc_close drives d s = sdf_close d s) := by
  refine ⟨?_, ?_, ?_, ?_⟩
  · intro σ drives f d s h
    simp only [disc_close, h]
  · intro drives f1 d s h0 _
    simp [disc_close, h0]
  · intro σ drives c d s
    rfl
  · intro drives d s h
    simp only [disc_close, h]

/-- Witness for C10: with sdf_close bound on drive 0 and drive 1 holding an
open ADFS L image, closing drive 1 goes through drive 0's slot and unbinds
drive 1; with drive 0's slot empty, drive 1 stays bound. -/
theorem C10_witness :
    disc_close (fun _ => DRIVE.mk (some sdf_close)) 1
        { stL with geometry := upd st0.geometry 1 (some adfsL),
                   fp_open := upd st0.fp_open 1 true } =
      sdf_close 1
        { stL with geometry := upd st0.geometry 1 (some adfsL),
                   fp_open := upd st0.fp_open 1 true } ∧
    disc_close (fun i => DRIVE.mk
        (if i = 1 then some sdf_close else none)) 1
        { stL with geometry := upd st0.geometry 1 (some adfsL),
                   fp_open := upd st0.fp_open 1 true } =
      { stL with geometry := upd st0.geometry 1 (some adfsL),
                 fp_open := upd st0.fp_open 1 true } :=
  ⟨C10_disc_close.2.2.2 _ 1 _ rfl,
   (C10_disc_close.2.1 _ sdf_close 1 _ rfl rfl).1⟩

/-- C5 counterexample: the quad-density catalog entry (Acorn ADFS F) never
matches the boolean density flag: with it bound in drive 0 and every other
parameter valid (idle backend, drive 0, sector 0, track 0 = current track,
side 0), both values of the flag take the not-found path, and no flag value
at all starts the transfer. -/
theorem C5_counterexample :
    adfsF ∈ sdf_geometries ∧ adfsF.density = density_t.DENS_QUAD ∧
    (sdf_readsector 0 0 0 0 0 stF).sdf_state = state_t.ST_NOTFOUND ∧
    (sdf_readsector 0 0 0 0 1 stF).sdf_state = state_t.ST_NOTFOUND ∧
    ¬ ∃ density : Int, (sdf_readsector 0 0 0 0 density stF).sdf_state =
        state_t.ST_READSECTOR := by
  refine ⟨by decide, by decide, by decide, by decide, ?_⟩
  rintro ⟨d, hd⟩
  have hdens : dens_ok d adfsF = false := by
    simp [dens_ok, adfsF]
  have hng : ¬ rw_guards stF 0 0 0 0 d := by
    rintro ⟨-, geo, hgeo, hdok, -⟩
    have hsome : some adfsF = some geo := hgeo
    obtain rfl : adfsF = geo := Option.some.inj hsome
    rw [hdens] at hdok
    cases hdok
  rw [sdf_readsector_reject rfl hng] at hd
  simp [notfound_setup] at hd

/-- C5 (amended): the density guard passes exactly when the flag is clear and
the bound geometry is single-density, or the flag is set and it is
double-density; consequently the guard can never pass for a quad-density
geometry, and for every non-quad catalog geometry there is a flag value under
which a read-sector request with otherwise valid parameters begins a transfer
rather than taking the not-found path. -/
theorem C5_density_guard :
    (∀ (density : Int) (geo : geometry_t),
        dens_ok density geo = true ↔
          ((density = 0 ∧ geo.density = density_t.DENS_SINGLE) ∨
           (density ≠ 0 ∧ geo.density = density_t.DENS_DOUBLE))) ∧
    (∀ geo : geometry_t, geo.density = density_t.DENS_QUAD →
        ∀ density : Int, dens_ok density geo = false) ∧
    (∀ geo ∈ sdf_geometries, geo.density ≠ density_t.DENS_QUAD →
        ∀ (s : EmuState) (drive : Nat) (sector track side : Int),
          s.sdf_state = state_t.ST_IDLE → drive < 2 →
          s.geometry drive = some geo →
          track = ((s.current_track drive : Nat) : Int) →
          track < (geo.tracks : Int) →
          0 ≤ sector → sector < (geo.sectors_per_track : Int) →
          (side = 0 ∨ geo.sides ≠ sides_t.SIDES_SINGLE) →
          ∃ density : Int,
            (sdf_readsector drive sector track side density s).sdf_state =
              state_t.ST_READSECTOR) := by
  refine ⟨?_, ?_, ?_⟩
  · intro density geo
    simp [dens_ok]
  · intro geo hq density
    simp [dens_ok, hq]
  · intro geo hmem hnq s drive sector track side hidle hdrive hgeo htr htlt
      hs0 hslt hside
    have hall : ∀ g ∈ sdf_geometries,
        g.density = density_t.DENS_SINGLE ∨
        g.density = density_t.DENS_DOUBLE ∨
        g.density = density_t.DENS_QUAD := by decide
    rcases hall geo hmem with h1 | h1 | h1
    · exact ⟨0, by
        rw [sdf_readsector_accept hidle hdrive hgeo (by simp [dens_ok, h1])
          htr htlt hs0 hslt hside]⟩
    · exact ⟨1, by
        rw [sdf_readsector_accept hidle hdrive hgeo (by simp [dens_ok, h1])
          htr htlt hs0 hslt hside]⟩
    · exact absurd h1 hnq

/-- Witness for C5: with the ADFS L geometry bound in drive 0 there is a
density-flag value under which read sector begins a transfer. -/
theorem C5_witness :
    ∃ density : Int,
      (sdf_readsector 0 0 0 0 density stL).sdf_state =
        state_t.ST_READSECTOR :=
  C5_density_guard.2.2 adfsL (by decide) (by decide) stL 0 0 0 0 rfl
    (by decide) rfl rfl (by decide) (by decide) (by decide) (Or.inl rfl)

/-- C3: for every catalog geometry and a track, sector and side the transfer
guards accept, io_seek positions the file at the linear offset given by the
side-layout formula: side 0 is track times bytes-per-track, doubled when the
sides are interleaved; side 1 is (track + total tracks) times bytes-per-track
for the sequential layout and (2 track + 1) times bytes-per-track for the
interleaved layout; plus sector times sector size.  In particular, on the
interleaved 80-track 16-sector 256-byte geometry track 10 side 1 maps to
(10*2+1)*16*256 + sector*256 and on the sequential counterpart to
(10+80)*16*256 + sector*256. -/
theorem C3_io_seek_formula :
    (∀ geo ∈ sdf_geometries,
      ∀ sector track side : Nat, track < geo.tracks →
        sector < geo.sectors_per_track →
        (side = 0 ∨ (side = 1 ∧ geo.sides ≠ sides_t.SIDES_SINGLE)) →
        io_seek_offset geo sector track side =
          (if side = 0 then
             (if geo.sides = sides_t.SIDES_INTERLEAVED
              then track * (geo.sectors_per_track * geo.sector_size) * 2
              else track * (geo.sectors_per_track * geo.sector_size))
           else if geo.sides = sides_t.SIDES_SEQUENTIAL
           then (track + geo.tracks) * (geo.sectors_per_track * geo.sector_size)
           else (track * 2 + 1) * (geo.sectors_per_track * geo.sector_size))
          + sector * geo.sector_size) ∧
    (∀ sector : Nat, sector < 16 →
      io_seek_offset ⟨sides_t.SIDES_INTERLEAVED, density_t.DENS_DOUBLE,
          2560, 80, 16, 256⟩ sector 10 1 =
        (10 * 2 + 1) * 16 * 256 + sector * 256) ∧
    (∀ sector : Nat, sector < 16 →
      io_seek_offset ⟨sides_t.SIDES_SEQUENTIAL, density_t.DENS_DOUBLE,
          1280, 80, 16, 256⟩ sector 10 1 =
        (10 + 80) * 16 * 256 + sector * 256) := by
  refine ⟨?_, ?_, ?_⟩
  · intro geo hmem sector track side htr hsec hside
    fin_cases hmem <;>
      rcases hside with rfl | ⟨rfl, hns⟩ <;>
      simp_all [io_seek_offset, M32] <;>
      omega
  · intro sector hs
    simp [io_seek_offset, M32]
    omega
  · intro sector hs
    simp [io_seek_offset, M32]
    omega

/-- Witness for C3: on the interleaved ADFS L geometry, sector 3 of track 10
side 1 sits at byte offset (10*2+1)*16*256 + 3*256. -/
theorem C3_witness :
    io_seek_offset adfsL 3 10 1 = (10 * 2 + 1) * 16 * 256 + 3 * 256 := by
  have h := C3_io_seek_formula.1 adfsL (by decide) 3 10 1 (by decide)
    (by decide) (Or.inr ⟨rfl, by decide⟩)
  simpa [adfsL] using h

theorem sdf_run_one (s : EmuState) : sdf_run 1 s = sdf_poll_body s := by
  simp [sdf_run]

theorem sdf_run_add (a b : Nat) (s : EmuState) :
    sdf_run (a + b) s =
      ((sdf_run b (sdf_run a s).1).1,
       (sdf_run a s).2 ++ (sdf_run b (sdf_run a s).1).2) := by
  induction a generalizing s with
  | zero => simp [sdf_run]
  | succ n ih =>
      have hh : n + 1 + b = (n + b) + 1 := by omega
      rw [hh]
      simp only [sdf_run]
      rw [ih]
      simp

theorem notfound_tick {s : EmuState} (hst : s.sdf_state = state_t.ST_NOTFOUND)
    (h2 : 2 ≤ s.count) :
    sdf_poll_body s = ({ s with count := s.count - 1 }, []) := by
  unfold sdf_poll_body
  rw [hst]
  dsimp only
  have hc : dec16 s.count = s.count - 1 := by
    unfold dec16
    rw [if_neg (by omega : ¬(s.count = 0))]
  rw [hc, if_neg (by omega : ¬(s.count - 1 = 0))]

theorem notfound_fire {s : EmuState} (hst : s.sdf_state = state_t.ST_NOTFOUND)
    (h1 : s.count = 1) :
    sdf_poll_body s =
      ({ wd1770_notfound { s with count := 0 } with
         sdf_state := state_t.ST_IDLE }, [FdcEv.ev_notfound]) := by
  unfold sdf_poll_body
  rw [hst]
  dsimp only
  have hc : dec16 s.count = 0 := by
    unfold dec16
    rw [if_neg (by omega : ¬(s.count = 0))]
    omega
  rw [hc, if_pos rfl]

theorem notfound_countdown_partial :
    ∀ (m : Nat) (s : EmuState), s.sdf_state = state_t.ST_NOTFOUND →
      m < s.count →
      (sdf_run m s).1.sdf_state = state_t.ST_NOTFOUND ∧
      (sdf_run m s).1.count = s.count - m ∧
      (sdf_run m s).2 = [] := by
  intro m
  induction m with
  | zero => intro s hst _; exact ⟨hst, rfl, rfl⟩
  | succ n ih =>
      intro s hst hlt
      have hstep := notfound_tick hst (by omega)
      obtain ⟨ih1, ih2, ih3⟩ := ih { s with count := s.count - 1 } hst
        (show n < s.count - 1 by omega)
      refine ⟨?_, ?_, ?_⟩
      · simpa only [sdf_run, hstep] using ih1
      · simp only [sdf_run, hstep]
        rw [ih2]
        show s.count - 1 - n = s.count - (n + 1)
        omega
      · simp only [sdf_run, hstep, ih3, List.append_nil, List.nil_append]

/-- C4: each of the four transfer-initiating backend operations, invoked while
the backend is idle, reacts to any guard failure (invalid drive, no geometry,
density mismatch, wrong or out-of-range track, out-of-range sector, side 1 on
a single-sided geometry) by entering the not-found state with a 500-count
countdown; the countdown then runs for exactly 500 divided poll ticks — no
callback at all, in particular no data-ready, on the first 499 — fires the
not-found completion callback on the 500th and returns the backend to idle. -/
theorem C4_guard_failure_notfound :
    (∀ (s : EmuState) (drive : Nat) (sector track side density : Int),
        s.sdf_state = state_t.ST_IDLE →
        ¬ rw_guards s drive sector track side density →
        sdf_readsector drive sector track side density s =
          notfound_setup s) ∧
    (∀ (s : EmuState) (drive : Nat) (sector track side density : Int),
        s.sdf_state = state_t.ST_IDLE →
        ¬ rw_guards s drive sector track side density →
        sdf_writesector drive sector track side density s =
          notfound_setup s) ∧
    (∀ (s : EmuState) (drive : Nat) (track side density : Int),
        s.sdf_state = state_t.ST_IDLE →
        ¬ ra_guards s drive track side density →
        sdf_readaddress drive track side density s = notfound_setup s) ∧
    (∀ (s : EmuState) (drive : Nat) (track side density : Int),
        s.sdf_state = state_t.ST_IDLE →
        ¬ ra_guards s drive track side density →
        sdf_format drive track side density s = notfound_setup s) ∧
    (∀ s : EmuState, s.sdf_state = state_t.ST_NOTFOUND → s.count = 500 →
        (∀ m, m < 500 → (sdf_run m s).1.sdf_state = state_t.ST_NOTFOUND ∧
            (sdf_run m s).2 = []) ∧
        (sdf_run 500 s).1.sdf_state = state_t.ST_IDLE ∧
        (sdf_run 500 s).2 = [FdcEv.ev_notfound]) := by
  refine ⟨fun s d sec tr si de h hn => sdf_readsector_reject h hn,
          fun s d sec tr si de h hn => sdf_writesector_reject h hn,
          fun s d tr si de h hn => sdf_readaddress_reject h hn,
          fun s d tr si de h hn => sdf_format_reject h hn, ?_⟩
  intro s hst hcnt
  refine ⟨?_, ?_, ?_⟩
  · intro m hm
    have h := notfound_countdown_partial m s hst (by omega)
    exact ⟨h.1, h.2.2⟩
  · have hp := notfound_countdown_partial 499 s hst (by omega)
    have hfire := notfound_fire hp.1 (by rw [hp.2.1, hcnt])
    rw [show (500 : Nat) = 499 + 1 from rfl, sdf_run_add, sdf_run_one, hfire]
  · have hp := notfound_countdown_partial 499 s hst (by omega)
    have hfire := notfound_fire hp.1 (by rw [hp.2.1, hcnt])
    rw [show (500 : Nat) = 499 + 1 from rfl, sdf_run_add, sdf_run_one, hfire,
      hp.2.2]
    rfl

/-- Witness for C4: on the empty state (no geometry bound) a read sector
request starts the 500-tick not-found countdown, which fires exactly the
not-found callback. -/
theorem C4_witness :
    sdf_readsector 0 0 0 0 0 st0 = notfound_setup st0 ∧
    (sdf_run 500
        { st0 with sdf_state := state_t.ST_NOTFOUND, count := 500 }).2 =
      [FdcEv.ev_notfound] :=
  ⟨C4_guard_failure_notfound.1 st0 0 0 0 0 0 rfl
      (by rintro ⟨-, geo, hgeo, -⟩; exact Option.noConfusion hgeo),
   (C4_guard_failure_notfound.2.2.2.2 _ rfl rfl).2.2⟩

theorem write_underrun_tick {s : EmuState}
    (hst : s.sdf_state = state_t.ST_WRITESECTOR)
    (hwp : s.writeprot s.sdf_drive = false)
    (hwr : s.written = 0) (hcnt : s.count < 65536) :
    sdf_poll_body s = (s, []) := by
  unfold sdf_poll_body wd1770_getdata
  rw [hst]
  dsimp only
  rw [hwp]
  simp only [Bool.false_eq_true, if_false]
  rw [if_pos (hwr : ({ s with count := dec16 s.count } : EmuState).written = 0)]
  dsimp only
  rw [if_pos rfl]
  rw [← hst]
  show (({ s with count := inc16 (dec16 s.count) } : EmuState),
      ([] : List FdcEv)) = (s, [])
  rw [inc16_dec16 hcnt]

/-- A concrete controller state for the C8 scenario: ADFS L bound in drive 0,
controller idle with the motor bit set, double density selected, track and
sector registers at 0, and a stale byte flagged in the data register. -/
def sC8 : EmuState := { stL with status := 0x80, density := 1, written := 1 }

/-- C8: during a write-sector transfer a data-request pull that finds no byte
latched returns -1 — distinct from every valid data byte — and on such a tick
the backend leaves the byte counter unchanged, writes nothing to the file,
stays in the write state and so retries on the next divided tick.  In
particular, issuing Write Sector clears the byte-latched flag, so the first
transfer tick pulls no data and leaves the file unmodified. -/
theorem C8_write_underrun :
    (∀ (s : EmuState) (last : Bool), s.written = 0 →
        wd1770_getdata last s = (-1, s)) ∧
    (∀ b : Nat, b ≤ 255 → (-1 : Int) ≠ (b : Int)) ∧
    (∀ s : EmuState, s.sdf_state = state_t.ST_WRITESECTOR →
        s.writeprot s.sdf_drive = false → s.written = 0 → s.count < 65536 →
        sdf_poll_body s = (s, [])) ∧
    ((write_1770 0 0xA0 sC8).1.written = 0 ∧
     (write_1770 0 0xA0 sC8).1.sdf_state = state_t.ST_WRITESECTOR ∧
     (write_1770 0 0xA0 sC8).1.count = 256 ∧
     sdf_poll_body (write_1770 0 0xA0 sC8).1 =
       ((write_1770 0 0xA0 sC8).1, []) ∧
     (write_1770 0 0xA0 sC8).1.file = sC8.file) := by
  refine ⟨?_, ?_, ?_, ?_, ?_, ?_, ?_, ?_⟩
  · intro s last hwr
    unfold wd1770_getdata
    rw [if_pos hwr]
  · intro b _
    omega
  · intro s h1 h2 h3 h4
    exact write_underrun_tick h1 h2 h3 h4
  · decide
  · decide
  · decide
  · exact write_underrun_tick (by decide) (by decide) (by decide) (by decide)
  · rfl

/-- Witness for C8: the data-request pull on the freshly reset state (no byte
latched) reports the underrun value and leaves the state untouched. -/
def stW : EmuState :=
  { st0 with sdf_state := state_t.ST_WRITESECTOR, count := 256 }

theorem C8_witness :
    wd1770_getdata true st0 = (-1, st0) ∧
    sdf_poll_body stW = (stW, []) :=
  ⟨C8_write_underrun.1 st0 true rfl,
   C8_write_underrun.2.2.1 stW rfl rfl rfl (by decide)⟩

theorem writeBytes_lower (d : Nat) :
    ∀ (bs : List Nat) (f : Nat → Nat → Nat) (p q : Nat), q < p →
      writeBytes d f p bs d q = f d q := by
  intro bs
  induction bs with
  | nil => intro f p q _; rfl
  | cons b bs ih =>
      intro f p q hq
      show writeBytes d (upd f d (upd (f d) p (b % 256))) (p + 1) bs d q
        = f d q
      rw [ih _ (p + 1) q (by omega)]
      simp [upd, show q ≠ p from by omega]

theorem readBytes_writeBytes (d : Nat) :
    ∀ (bs : List Nat) (f : Nat → Nat → Nat) (p : Nat),
      (∀ b ∈ bs, b < 256) →
      readBytes (writeBytes d f p bs) d p bs.length = bs := by
  intro bs
  induction bs with
  | nil => intro f p _; rfl
  | cons b bs ih =>
      intro f p hb
      have hb0 : b < 256 := hb b (List.mem_cons_self _ _)
      simp only [writeBytes, readBytes, List.length_cons]
      rw [writeBytes_lower d bs _ (p + 1) p (Nat.lt_succ_self p)]
      rw [ih _ (p + 1) (fun x hx => hb x (List.mem_cons_of_mem _ hx))]
      simp [upd, Nat.mod_eq_of_lt hb0]

theorem cpu_write_data_eq (d : Nat) (s : EmuState) :
    cpu_write_data d s =
      { s with nmi := clear2 s.nmi, status := s.status &&& 0xFD,
               data := d % 256, written := 1 } := rfl

theorem write_tick_cont {s : EmuState} {m : Nat}
    (hst : s.sdf_state = state_t.ST_WRITESECTOR)
    (hwp : s.writeprot s.sdf_drive = false) (hwr : s.written = 1)
    (hcnt : s.count = m + 1) (hm : m ≠ 0) :
    sdf_poll_body s =
      ({ s with nmi := s.nmi ||| 2, status := s.status ||| 2, written := 0,
                count := m,
                file := upd s.file s.sdf_drive
                  (upd (s.file s.sdf_drive) (s.fpos s.sdf_drive)
                    (s.data % 256)),
                fpos := upd s.fpos s.sdf_drive (s.fpos s.sdf_drive + 1) },
       []) := by
  have hdec : dec16 s.count = m := by
    rw [hcnt]; unfold dec16; rw [if_neg (Nat.succ_ne_zero m)]; omega
  have hlast : decide (m = 0) = false := by simp [hm]
  unfold sdf_poll_body wd1770_getdata putcFile
  rw [hst]
  dsimp only
  rw [hwp]
  simp only [Bool.false_eq_true, if_false]
  rw [hdec, hlast]
  rw [if_neg (show ¬(s.written = 0) by omega)]
  simp only [Bool.false_eq_true, if_false]
  rw [if_neg (show ¬((s.data : Int) = -1) by omega)]
  rw [if_neg (show ¬(m = 0) from hm)]
  rw [toU8_natCast]

theorem write_tick_last {s : EmuState}
    (hst : s.sdf_state = state_t.ST_WRITESECTOR)
    (hwp : s.writeprot s.sdf_drive = false) (hwr : s.written = 1)
    (hcnt : s.count = 1) :
    sdf_poll_body s =
      ({ s with written := 0, count := 0,
                file := upd s.file s.sdf_drive
                  (upd (s.file s.sdf_drive) (s.fpos s.sdf_drive)
                    (s.data % 256)),
                fpos := upd s.fpos s.sdf_drive (s.fpos s.sdf_drive + 1),
                fdc_time := 200, sdf_state := state_t.ST_IDLE },
       [FdcEv.ev_finishread]) := by
  have hdec : dec16 s.count = 0 := by
    rw [hcnt]; unfold dec16; rw [if_neg (Nat.succ_ne_zero 0)]
  unfold sdf_poll_body wd1770_getdata putcFile wd1770_finishread
  rw [hst]
  dsimp only
  rw [hwp]
  simp only [Bool.false_eq_true, if_false]
  rw [hdec]
  rw [if_neg (show ¬(s.written = 0) by omega)]
  simp only [decide_True, if_true]
  rw [if_neg (show ¬((s.data : Int) = -1) by omega)]
  rw [toU8_natCast]

theorem mod256_mod256 (d : Nat) : d % 256 % 256 = d % 256 :=
  Nat.mod_mod_of_dvd d dvd_rfl

theorem upd_self {α : Type} (f : Nat → α) (i : Nat) (v : α) :
    upd f i v i = v := by
  simp [upd]

theorem writeRun_spec :
    ∀ (ds : List Nat) (s : EmuState),
      s.sdf_state = state_t.ST_WRITESECTOR →
      s.count = ds.length → ds ≠ [] →
      s.writeprot s.sdf_drive = false →
      (writeRun ds s).1.sdf_state = state_t.ST_IDLE ∧
      (writeRun ds s).1.file =
        writeBytes s.sdf_drive s.file (s.fpos s.sdf_drive) ds ∧
      (writeRun ds s).1.geometry = s.geometry ∧
      (writeRun ds s).1.current_track = s.current_track ∧
      (writeRun ds s).1.writeprot = s.writeprot ∧
      (writeRun ds s).1.sdf_drive = s.sdf_drive ∧
      dataBytes (writeRun ds s).2 = [] := by
  intro ds
  induction ds with
  | nil => intro s _ _ hne _; exact absurd rfl hne
  | cons d ds ih =>
      intro s hst hcnt _ hwp
      cases ds with
      | nil =>
          have h1 := write_tick_last (s := cpu_write_data d s) hst hwp rfl hcnt
          simp only [writeRun]
          rw [h1]
          refine ⟨rfl, ?_, rfl, rfl, rfl, rfl, rfl⟩
          show upd s.file s.sdf_drive
              (upd (s.file s.sdf_drive) (s.fpos s.sdf_drive)
                (d % 256 % 256)) =
            writeBytes s.sdf_drive s.file (s.fpos s.sdf_drive) [d]
          rw [mod256_mod256]
          rfl
      | cons e ds' =>
          have h1 := write_tick_cont (s := cpu_write_data d s)
            (m := (e :: ds').length) hst hwp rfl hcnt (by simp)
          simp only [writeRun]
          obtain ⟨ih1, ih2, ih3, ih4, ih5, ih6, ih7⟩ :=
            ih ((sdf_poll_body (cpu_write_data d s)).1)
              (by rw [h1]; exact hst) (by rw [h1]) (by simp)
              (by rw [h1]; exact hwp)
          rw [h1] at ih1 ih2 ih3 ih4 ih5 ih6 ih7 ⊢
          refine ⟨ih1, ?_, ih3.trans rfl, ih4.trans rfl, ih5.trans rfl,
            ih6.trans rfl, ih7⟩
          refine ih2.trans ?_
          show writeBytes s.sdf_drive
              (upd s.file s.sdf_drive
                (upd (s.file s.sdf_drive) (s.fpos s.sdf_drive)
                  (d % 256 % 256)))
              (upd s.fpos s.sdf_drive (s.fpos s.sdf_drive + 1) s.sdf_drive)
              (e :: ds') =
            writeBytes s.sdf_drive s.file (s.fpos s.sdf_drive)
              (d :: e :: ds')
          rw [upd_self, mod256_mod256]
          rfl

theorem dataBytes_append (l1 l2 : List FdcEv) :
    dataBytes (l1 ++ l2) = dataBytes l1 ++ dataBytes l2 :=
  List.filterMap_append l1 l2 _

theorem read_tick_cont {s : EmuState} {m : Nat}
    (hst : s.sdf_state = state_t.ST_READSECTOR)
    (hcnt : s.count = m + 1) (hm : m ≠ 0) :
    sdf_poll_body s =
      ({ s with data := s.file s.sdf_drive (s.fpos s.sdf_drive) % 256,
                status := s.status ||| 2, nmi := s.nmi ||| 2,
                fpos := upd s.fpos s.sdf_drive (s.fpos s.sdf_drive + 1),
                count := m },
       [FdcEv.ev_data (s.file s.sdf_drive (s.fpos s.sdf_drive) % 256)]) := by
  have hdec : dec16 s.count = m := by
    rw [hcnt]; unfold dec16; rw [if_neg (Nat.succ_ne_zero m)]; omega
  unfold sdf_poll_body getcFile wd1770_data
  rw [hst]
  dsimp only
  rw [hdec]
  rw [if_neg hm]

theorem read_tick_last {s : EmuState}
    (hst : s.sdf_state = state_t.ST_READSECTOR)
    (hcnt : s.count = 1) :
    sdf_poll_body s =
      ({ s with data := s.file s.sdf_drive (s.fpos s.sdf_drive) % 256,
                status := s.status ||| 2, nmi := s.nmi ||| 2,
                fpos := upd s.fpos s.sdf_drive (s.fpos s.sdf_drive + 1),
                count := 0, fdc_time := 200,
                sdf_state := state_t.ST_IDLE },
       [FdcEv.ev_data (s.file s.sdf_drive (s.fpos s.sdf_drive) % 256),
        FdcEv.ev_finishread]) := by
  have hdec : dec16 s.count = 0 := by
    rw [hcnt]; unfold dec16; rw [if_neg (Nat.succ_ne_zero 0)]
  unfold sdf_poll_body getcFile wd1770_data wd1770_finishread
  rw [hst]
  dsimp only
  rw [hdec]
  rw [if_pos rfl]

theorem readRun_spec :
    ∀ (n : Nat) (s : EmuState), s.sdf_state = state_t.ST_READSECTOR →
      s.count = n + 1 →
      (sdf_run (n + 1) s).1.sdf_state = state_t.ST_IDLE ∧
      dataBytes (sdf_run (n + 1) s).2 =
        readBytes s.file s.sdf_drive (s.fpos s.sdf_drive) (n + 1) := by
  intro n
  induction n with
  | zero =>
      intro s hst hcnt
      have h1 := read_tick_last hst hcnt
      rw [sdf_run_one, h1]
      exact ⟨rfl, rfl⟩
  | succ k ih =>
      intro s hst hcnt
      have h1 := read_tick_cont (m := k + 1) hst hcnt (Nat.succ_ne_zero k)
      obtain ⟨ihA, ihB⟩ := ih ((sdf_poll_body s).1)
        (by rw [h1]; exact hst) (by rw [h1])
      have hrw : (k + 1) + 1 = 1 + (k + 1) := by omega
      rw [h1] at ihA ihB
      rw [hrw, sdf_run_add, sdf_run_one, h1]
      refine ⟨ihA, ?_⟩
      rw [dataBytes_append, ihB]
      show [s.file s.sdf_drive (s.fpos s.sdf_drive) % 256] ++
          readBytes s.file s.sdf_drive
            (upd s.fpos s.sdf_drive (s.fpos s.sdf_drive + 1) s.sdf_drive)
            (k + 1) =
        readBytes s.file s.sdf_drive (s.fpos s.sdf_drive) (1 + (k + 1))
      rw [upd_self]
      rw [show 1 + (k + 1) = (k + 1) + 1 from by omega]
      rfl

/-- C2: under a bound geometry, for every guard-valid (sector, track, side),
matching density and write-enabled drive, completing a write-sector transfer
of a sector-size byte sequence (the CPU latching each byte before its divided
tick) and then completing a read-sector of the same address delivers, via the
data-ready callback, exactly the bytes that were written, in the same order;
the write itself fires no data-ready callback and both transfers return the
backend to idle. -/
theorem C2_roundtrip (s : EmuState) (geo : geometry_t) (drive : Nat)
    (sector track side density : Int) (ds : List Nat)
    (hidle : s.sdf_state = state_t.ST_IDLE)
    (hdrive : drive < 2)
    (hgeo : s.geometry drive = some geo)
    (hdens : dens_ok density geo = true)
    (htrk : track = ((s.current_track drive : Nat) : Int))
    (htlt : track < (geo.tracks : Int))
    (hs0 : 0 ≤ sector) (hslt : sector < (geo.sectors_per_track : Int))
    (hside : side = 0 ∨ geo.sides ≠ sides_t.SIDES_SINGLE)
    (hwp : s.writeprot drive = false)
    (hlen : ds.length = geo.sector_size)
    (hbytes : ∀ b ∈ ds, b < 256)
    (hsz : 0 < geo.sector_size) :
    dataBytes (sdf_run geo.sector_size
      (sdf_readsector drive sector track side density
        (writeRun ds
          (sdf_writesector drive sector track side density s)).1)).2 = ds ∧
    (sdf_run geo.sector_size
      (sdf_readsector drive sector track side density
        (writeRun ds
          (sdf_writesector drive sector track side density s)).1)).1.sdf_state
      = state_t.ST_IDLE ∧
    dataBytes (writeRun ds
      (sdf_writesector drive sector track side density s)).2 = [] := by
  have hmod : drive % 256 = drive := Nat.mod_eq_of_lt (by omega)
  have hne : ds ≠ [] := by
    intro h
    rw [h] at hlen
    simp at hlen
    omega
  have haccW := sdf_writesector_accept hidle hdrive hgeo hdens htrk htlt hs0
    hslt hside
  have hstW : (sdf_writesector drive sector track side density s).sdf_state =
      state_t.ST_WRITESECTOR := by rw [haccW]
  have hcntW : (sdf_writesector drive sector track side density s).count =
      ds.length := by rw [haccW]; exact hlen.symm
  have hwpW : (sdf_writesector drive sector track side density s).writeprot
      ((sdf_writesector drive sector track side density s).sdf_drive) =
      false := by
    rw [haccW]
    show s.writeprot (drive % 256) = false
    rw [hmod]
    exact hwp
  obtain ⟨W1, W2, W3, W4, W5, W6, W7⟩ :=
    writeRun_spec ds _ hstW hcntW hne hwpW
  have hgeo2 : (writeRun ds
      (sdf_writesector drive sector track side density s)).1.geometry drive =
      some geo := by
    rw [W3, haccW]
    exact hgeo
  have htrk2 : track =
      (((writeRun ds
        (sdf_writesector drive sector track side density s)).1.current_track
          drive : Nat) : Int) := by
    rw [W4, haccW]
    exact htrk
  have haccR := sdf_readsector_accept W1 hdrive hgeo2 hdens htrk2 htlt hs0
    hslt hside
  have hstR : (sdf_readsector drive sector track side density
      (writeRun ds
        (sdf_writesector drive sector track side density s)).1).sdf_state =
      state_t.ST_READSECTOR := by rw [haccR]
  have hcntR : (sdf_readsector drive sector track side density
      (writeRun ds
        (sdf_writesector drive sector track side density s)).1).count =
      (geo.sector_size - 1) + 1 := by
    rw [haccR]
    show geo.sector_size = geo.sector_size - 1 + 1
    omega
  obtain ⟨R1, R2⟩ := readRun_spec (geo.sector_size - 1) _ hstR hcntR
  have hXfile : (sdf_readsector drive sector track side density
      (writeRun ds
        (sdf_writesector drive sector track side density s)).1).file =
      (writeRun ds
        (sdf_writesector drive sector track side density s)).1.file := by
    rw [haccR]
    rfl
  have hXdr : (sdf_readsector drive sector track side density
      (writeRun ds
        (sdf_writesector drive sector track side density s)).1).sdf_drive =
      drive := by
    rw [haccR]
    exact hmod
  have hXfpos : (sdf_readsector drive sector track side density
      (writeRun ds
        (sdf_writesector drive sector track side density s)).1).fpos
      ((sdf_readsector drive sector track side density
        (writeRun ds
          (sdf_writesector drive sector track side density s)).1).sdf_drive) =
      io_seek_offset geo (toU8 sector) (toU8 track) (toU8 side) := by
    rw [haccR]
    show upd ((writeRun ds
        (sdf_writesector drive sector track side density s)).1.fpos) drive
        (io_seek_offset geo (toU8 sector) (toU8 track) (toU8 side))
        (drive % 256) =
      io_seek_offset geo (toU8 sector) (toU8 track) (toU8 side)
    rw [hmod]
    exact upd_self _ _ _
  have hs1dr : (sdf_writesector drive sector track side density s).sdf_drive =
      drive := by rw [haccW]; exact hmod
  have hs1file : (sdf_writesector drive sector track side density s).file =
      s.file := by rw [haccW]; rfl
  have hs1fpos : (sdf_writesector drive sector track side density s).fpos
      ((sdf_writesector drive sector track side density s).sdf_drive) =
      io_seek_offset geo (toU8 sector) (toU8 track) (toU8 side) := by
    rw [haccW]
    show upd s.fpos drive
        (io_seek_offset geo (toU8 sector) (toU8 track) (toU8 side))
        (drive % 256) =
      io_seek_offset geo (toU8 sector) (toU8 track) (toU8 side)
    rw [hmod]
    exact upd_self _ _ _
  rw [hXfile, hXfpos, hXdr, W2, hs1fpos, hs1dr, hs1file] at R2
  rw [show geo.sector_size - 1 + 1 = ds.length from by omega] at R2
  have hfinal := readBytes_writeBytes drive ds s.file
    (io_seek_offset geo (toU8 sector) (toU8 track) (toU8 side)) hbytes
  refine ⟨?_, ?_, W7⟩
  · rw [show geo.sector_size = ds.length from hlen.symm]
    exact R2.trans hfinal
  · rw [show geo.sector_size = geo.sector_size - 1 + 1 from by omega]
    exact R1

/-- Witness for C2: a 256-byte sector of byte 7 written to sector 0, track 0,
side 0 of the bound ADFS L image reads back identically. -/
theorem C2_witness :
    dataBytes (sdf_run adfsL.sector_size
      (sdf_readsector 0 0 0 0 1
        (writeRun (List.replicate 256 7)
          (sdf_writesector 0 0 0 0 1 stL)).1)).2 = List.replicate 256 7 :=
  (C2_roundtrip stL adfsL 0 0 0 0 1 (List.replicate 256 7) rfl (by decide) rfl
    (by decide) rfl (by decide) (by decide) (by decide) (Or.inl rfl) rfl
    (List.length_replicate 256 7)
    (by intro b hb; rw [List.eq_of_mem_replicate hb]; decide)
    (by decide)).1
